import Mathlib

set_option autoImplicit false

/-!
Shallow embedding of `chat_state.py` (legal-assistant chat state):
attachment windowing, thread lifecycle, OCR escalation during upload,
tool dispatch for `requires_action` events, temp-file cleanup, the
clear-chat reset, and the three background loops (elapsed-time counter,
liveness janitor, age janitor).  Machine times are modelled as whole
seconds (`Int`), Python strings as Lean `String` (lists of code points),
and the remote API's behaviour as explicit outcome parameters.
-/

/-- A chat message, from the source's `Message` TypedDict: `{role, content}`. -/
structure Message where
  role : String
  content : String
  deriving DecidableEq

/-- An uploaded file record, from the source's `FileInfo` TypedDict:
`{file_id, filename, uploaded_at}`.  `uploaded_at` is a wall-clock
timestamp in seconds. -/
structure FileInfo where
  file_id : String
  filename : String
  uploaded_at : Int
  deriving DecidableEq

/-- Python truthiness of an `str | None` value: `None` and `""` are falsy,
every non-empty string is truthy (`not self.thread_id`). -/
def pyTruthyStr : Option String → Bool
  | none => false
  | some s => !s.data.isEmpty

/-- `get_client` returns a client exactly when the API key is truthy
(`if api_key: return OpenAI(...)`), else `None`. -/
def clientExists (api_key : String) : Bool :=
  !api_key.data.isEmpty

/-- The per-turn snapshot `current_files = self.session_files[-3:].copy()`:
the most recent 3 session files (all of them when fewer than 3 exist). -/
def currentFiles (session_files : List FileInfo) : List FileInfo :=
  session_files.drop (session_files.length - 3)

/-- The only tool type ever attached to a message in the source:
`{"type": "file_search"}`. -/
inductive ToolRef
  | fileSearch
  deriving DecidableEq

/-- One attachment of the outbound message:
`{"file_id": fi["file_id"], "tools": [{"type": "file_search"}]}`. -/
structure Attachment where
  file_id : String
  tools : List ToolRef
  deriving DecidableEq

/-- The attachment list built in `generate_response_streaming`: one
`file_search` attachment per file of the `current_files` snapshot. -/
def messageAttachments (session_files : List FileInfo) : List Attachment :=
  (currentFiles session_files).map (fun fi => ⟨fi.file_id, [ToolRef.fileSearch]⟩)

/-- The thread-creation condition of `generate_response_streaming`:
`if not self.thread_id or (not current_files and self.thread_id):`. -/
def createsNewThread (thread_id : Option String) (current_files : List FileInfo) : Bool :=
  !pyTruthyStr thread_id || (current_files.isEmpty && pyTruthyStr thread_id)

/-- Thread id after the setup step of `generate_response_streaming`,
paired with whether `threads.create` was called: when the condition
fires the id becomes the fresh id returned by the API, otherwise the
existing id is kept and no creation call is made. -/
def threadAfterSetup (thread_id : Option String) (current_files : List FileInfo)
    (fresh : String) : Option String × Bool :=
  if createsNewThread thread_id current_files then (some fresh, true)
  else (thread_id, false)

/-- `currentFiles` is empty exactly when the session file list is empty
(`l[-3:]` of a non-empty list is non-empty). -/
theorem currentFiles_nil_iff (sf : List FileInfo) : currentFiles sf = [] ↔ sf = [] := by
  constructor
  · intro h
    have h1 : (currentFiles sf).length = 0 := by rw [h]; rfl
    unfold currentFiles at h1
    rw [List.length_drop] at h1
    have h2 : sf.length = 0 := by omega
    exact List.length_eq_zero.mp h2
  · intro h; subst h; rfl

/-- C1: after uploading files F1..F5 in a session, the outbound message's
attachment list is exactly the attachments of F3, F4, F5, each paired
with the `file_search` tool; when the ids are pairwise distinct the
older files F1, F2 are not referenced; and when 3 or fewer session
files exist, all of them are attached. -/
theorem attachment_window (f1 f2 f3 f4 f5 : FileInfo)
    (h : ([f1, f2, f3, f4, f5].map FileInfo.file_id).Nodup) :
    messageAttachments [f1, f2, f3, f4, f5] =
      [⟨f3.file_id, [ToolRef.fileSearch]⟩, ⟨f4.file_id, [ToolRef.fileSearch]⟩,
        ⟨f5.file_id, [ToolRef.fileSearch]⟩] ∧
    (∀ a ∈ messageAttachments [f1, f2, f3, f4, f5], a.tools = [ToolRef.fileSearch]) ∧
    f1.file_id ∉ (messageAttachments [f1, f2, f3, f4, f5]).map Attachment.file_id ∧
    f2.file_id ∉ (messageAttachments [f1, f2, f3, f4, f5]).map Attachment.file_id ∧
    (∀ sf : List FileInfo, sf.length ≤ 3 →
      messageAttachments sf = sf.map (fun fi => ⟨fi.file_id, [ToolRef.fileSearch]⟩)) := by
  simp only [List.map, List.nodup_cons, List.mem_cons, List.mem_singleton,
    List.not_mem_nil, or_false] at h
  refine ⟨rfl, ?_, ?_, ?_, ?_⟩
  · intro a ha
    simp only [messageAttachments, currentFiles, List.length, List.drop,
      List.mem_map] at ha
    obtain ⟨fi, _, rfl⟩ := ha
    rfl
  · simp only [messageAttachments, currentFiles, List.length, List.drop,
      List.map, List.mem_cons, List.not_mem_nil, or_false]
    tauto
  · simp only [messageAttachments, currentFiles, List.length, List.drop,
      List.map, List.mem_cons, List.not_mem_nil, or_false]
    tauto
  · intro sf hlen
    have hz : sf.length - 3 = 0 := by omega
    simp [messageAttachments, currentFiles, hz]

/-- Witness for `attachment_window` at five concretely named files. -/
theorem attachment_window_witness :
    messageAttachments
        [⟨"file-1", "a.pdf", 0⟩, ⟨"file-2", "b.pdf", 1⟩, ⟨"file-3", "c.pdf", 2⟩,
          ⟨"file-4", "d.pdf", 3⟩, ⟨"file-5", "e.pdf", 4⟩] =
      [⟨"file-3", [ToolRef.fileSearch]⟩, ⟨"file-4", [ToolRef.fileSearch]⟩,
        ⟨"file-5", [ToolRef.fileSearch]⟩] :=
  (attachment_window ⟨"file-1", "a.pdf", 0⟩ ⟨"file-2", "b.pdf", 1⟩ ⟨"file-3", "c.pdf", 2⟩
    ⟨"file-4", "d.pdf", 3⟩ ⟨"file-5", "e.pdf", 4⟩ (by decide)).1

/-- C2: a new thread is created iff `thread_id` is `None` or the snapshot
of session files for the turn is empty; with a non-empty snapshot and an
existing (non-empty) thread id, the id is kept and no creation call is
made.  The hypothesis excludes the degenerate empty-string id, which the
program never produces (ids come from the API or are `None`). -/
theorem thread_reuse (tid : Option String) (sf : List FileInfo) (fresh : String)
    (h : tid ≠ some "") :
    (createsNewThread tid (currentFiles sf) = true ↔ (tid = none ∨ sf = [])) ∧
    (tid ≠ none → sf ≠ [] →
      threadAfterSetup tid (currentFiles sf) fresh = (tid, false)) := by
  have htid : pyTruthyStr tid = true ↔ tid ≠ none := by
    cases tid with
    | none => simp [pyTruthyStr]
    | some s =>
      obtain ⟨l⟩ := s
      have hl : l ≠ [] := fun he => h (by subst he; rfl)
      simp [pyTruthyStr, List.isEmpty_iff, hl]
  constructor
  · unfold createsNewThread
    cases htruthy : pyTruthyStr tid with
    | false =>
      have : tid = none := by
        by_contra hne
        exact absurd (htid.mpr hne) (by simp [htruthy])
      simp [this, pyTruthyStr]
    | true =>
      have hne : tid ≠ none := htid.mp htruthy
      simp [List.isEmpty_iff, currentFiles_nil_iff, hne]
  · intro hne hsf
    have htr : pyTruthyStr tid = true := htid.mpr hne
    have hcur : ¬ currentFiles sf = [] := fun hc => hsf ((currentFiles_nil_iff sf).mp hc)
    unfold threadAfterSetup createsNewThread
    rw [htr]
    simp [List.isEmpty_iff, hcur]

/-- Witness for `thread_reuse`: with one session file and an existing id
`th_1`, the setup keeps the id and creates no thread. -/
theorem thread_reuse_witness :
    threadAfterSetup (some "th_1") (currentFiles [⟨"file-1", "a.pdf", 0⟩]) "th_2" =
      (some "th_1", false) :=
  (thread_reuse (some "th_1") [⟨"file-1", "a.pdf", 0⟩] "th_2" (by decide)).2
    (by decide) (by decide)

/-- Python whitespace test used by `str.strip()`. -/
def pyIsSpaceChar (c : Char) : Bool := c.isWhitespace

/-- `str.strip()`: drop whitespace at both ends of a code-point list. -/
def stripChars (l : List Char) : List Char :=
  ((l.dropWhile pyIsSpaceChar).reverse.dropWhile pyIsSpaceChar).reverse

/-- `str.lower()` (ASCII range, which covers file names here). -/
def pyLowerStr (s : String) : String :=
  ⟨s.data.map Char.toLower⟩

/-- `file.name.lower().endswith(".pdf")`. -/
def endsWithPdf (name : String) : Bool :=
  ".pdf".data.isSuffixOf (pyLowerStr name).data

/-- The OCR-escalation condition of `handle_upload`:
`file.name.lower().endswith(".pdf") and (not extracted_text or
len(extracted_text.strip()) < 100)`.  Note the length is measured on the
*stripped* text. -/
def ocrTriggered (name extracted : String) : Bool :=
  endsWithPdf name &&
    (extracted.data.isEmpty || decide ((stripChars extracted.data).length < 100))

/-- Per-file outcome of the text-resolution phase of `handle_upload`. -/
inductive UploadDecision
  | skipOcrFailed
  | skipNoText
  | upload (text : String)
  deriving DecidableEq

/-- The text that `handle_upload` sends to the remote API for one file:
when OCR is triggered, its output replaces `extracted_text` and an
empty/whitespace-only OCR result skips the file (`Falló el OCR`);
otherwise empty/whitespace-only direct extraction skips the file
(the line-283 guard), and any other text is uploaded as is. -/
def resolveUploadText (name extracted ocrOut : String) : UploadDecision :=
  if ocrTriggered name extracted then
    if ocrOut.data.isEmpty || (stripChars ocrOut.data).isEmpty then .skipOcrFailed
    else .upload ocrOut
  else
    if extracted.data.isEmpty || (stripChars extracted.data).isEmpty then .skipNoText
    else .upload extracted

/-- A 100-character extraction result made of spaces. -/
def spaces100 : String := ⟨List.replicate 100 ' '⟩

/-- A 100-character extraction result made of `x`. -/
def hundredX : String := ⟨List.replicate 100 'x'⟩

/-- C3 counterexample: a PDF whose directly extracted text has exactly 100
characters (all spaces) still triggers OCR, because the source measures
the length of the *stripped* text — refuting "for every uploaded PDF
whose extracted text is at least 100 characters OCR is never invoked". -/
theorem ocr_despite_100_chars :
    spaces100.data.length = 100 ∧ ocrTriggered "doc.pdf" spaces100 = true := by
  constructor
  · decide
  · decide

/-- C3 amended: OCR is triggered iff the name ends in `.pdf`
(case-insensitive) and the extraction is empty or its *stripped* length
is under 100; a stripped extraction of at least 100 characters never
triggers OCR; non-PDF names never trigger OCR; and when OCR is
triggered, a non-whitespace OCR output replaces the extraction result
as the uploaded text. -/
theorem ocr_trigger_amended (name extracted ocrOut : String) :
    (ocrTriggered name extracted = true ↔
      endsWithPdf name = true ∧
        (extracted.data = [] ∨ (stripChars extracted.data).length < 100)) ∧
    (100 ≤ (stripChars extracted.data).length → ocrTriggered name extracted = false) ∧
    (endsWithPdf name = false → ocrTriggered name extracted = false) ∧
    (ocrTriggered name extracted = true → stripChars ocrOut.data ≠ [] →
      resolveUploadText name extracted ocrOut = .upload ocrOut) := by
  refine ⟨?_, ?_, ?_, ?_⟩
  · simp [ocrTriggered, List.isEmpty_iff]
  · intro hlen
    have hne : extracted.data ≠ [] := by
      intro he
      rw [he] at hlen
      simp [stripChars] at hlen
    simp only [ocrTriggered, Bool.and_eq_false_iff, Bool.or_eq_false_iff]
    right
    constructor
    · simp [List.isEmpty_iff, hne]
    · simp only [decide_eq_false_iff_not, not_lt]
      exact hlen
  · intro hpdf
    simp [ocrTriggered, hpdf]
  · intro htrig hocr
    have hne : ocrOut.data ≠ [] := by
      intro he
      apply hocr
      rw [he]; rfl
    simp [resolveUploadText, htrig, List.isEmpty_iff, hne, hocr]

/-- Witness for `ocr_trigger_amended`: 100 non-space characters do not
trigger OCR, and for an empty extraction the OCR output is uploaded. -/
theorem ocr_trigger_amended_witness :
    ocrTriggered "a.pdf" hundredX = false ∧
    resolveUploadText "b.pdf" "" "texto ocr" = .upload "texto ocr" :=
  ⟨(ocr_trigger_amended "a.pdf" hundredX "").2.1 (by decide),
    (ocr_trigger_amended "b.pdf" "" "texto ocr").2.2.2 (by decide) (by decide)⟩

/-- Occurrence of `sub` as a contiguous sublist of `l` (Python's `in` on
strings). -/
def listHasSub (sub : List Char) : List Char → Bool
  | [] => sub.isEmpty
  | c :: rest => sub.isPrefixOf (c :: rest) || listHasSub sub rest

/-- `sub in s` for Python strings. -/
def strContains (s sub : String) : Bool :=
  listHasSub sub.data s.data

/-- The not-found test of `monitor_session_health`:
`"No thread found" in str(e) or e.status_code == 404`. -/
def isNotFoundError (msg : String) (status : Nat) : Bool :=
  strContains msg "No thread found" || status == 404

/-- The session fields the janitors touch. -/
structure JanitorState where
  session_files : List FileInfo
  thread_id : Option String
  deriving DecidableEq

/-- Outcome of `client.beta.threads.retrieve` as seen by the janitor:
success, an `APIError` (message text and status code), or any other
exception (connection error etc.). -/
inductive RetrieveResult
  | ok
  | apiError (msg : String) (status : Nat)
  | connError (msg : String)

/-- `_cleanup_orphaned_files`: with a client and a non-empty session file
list, deletes every session file remotely and clears
`session_files`/`thread_id`; otherwise does nothing.  Returns the new
state and the ids deleted remotely. -/
def cleanupOrphanedFiles (hasClient : Bool) (st : JanitorState) :
    JanitorState × List String :=
  if hasClient && !st.session_files.isEmpty then
    (⟨[], none⟩, st.session_files.map FileInfo.file_id)
  else (st, [])

/-- One iteration of the `monitor_session_health` loop body, given the
outcome of the thread-retrieval call: only acts when session files and a
truthy thread id exist and a client is configured; cleans up on a
not-found `APIError`, and logs-and-ignores every other error. -/
def monitorIter (hasClient : Bool) (st : JanitorState) (res : RetrieveResult) :
    JanitorState × List String :=
  if !st.session_files.isEmpty && pyTruthyStr st.thread_id then
    if hasClient then
      match res with
      | .ok => (st, [])
      | .apiError msg status =>
          if isNotFoundError msg status then cleanupOrphanedFiles hasClient st
          else (st, [])
      | .connError _ => (st, [])
    else (st, [])
  else (st, [])

/-- C4: when session files exist (with a truthy thread id and a configured
client) and the retrieval fails with a not-found `APIError` (status 404
or a `No thread found` message), every session file is deleted remotely
and afterwards `session_files = []` and `thread_id = None`; any other
`APIError` and any non-`APIError` exception deletes nothing and leaves
the state unchanged. -/
theorem janitor_not_found (sf : List FileInfo) (tidStr msg : String) (status : Nat)
    (hsf : sf ≠ []) (htid : tidStr ≠ "") :
    (isNotFoundError msg status = true →
      monitorIter true ⟨sf, some tidStr⟩ (.apiError msg status) =
        (⟨[], none⟩, sf.map FileInfo.file_id)) ∧
    (isNotFoundError msg status = false →
      monitorIter true ⟨sf, some tidStr⟩ (.apiError msg status) =
        (⟨sf, some tidStr⟩, [])) ∧
    (∀ m, monitorIter true ⟨sf, some tidStr⟩ (.connError m) =
        (⟨sf, some tidStr⟩, [])) := by
  have htru : pyTruthyStr (some tidStr) = true := by
    obtain ⟨l⟩ := tidStr
    have hl : l ≠ [] := fun he => htid (by subst he; rfl)
    simp [pyTruthyStr, List.isEmpty_iff, hl]
  refine ⟨?_, ?_, ?_⟩
  · intro hnf
    simp [monitorIter, cleanupOrphanedFiles, htru, List.isEmpty_iff, hsf, hnf]
  · intro hnf
    simp [monitorIter, htru, List.isEmpty_iff, hsf, hnf]
  · intro m
    simp [monitorIter, htru, List.isEmpty_iff, hsf]

/-- Witness for `janitor_not_found`: one session file, thread `th_1`, a
`No thread found` error with a non-404 status — the file is deleted and
the state cleared. -/
theorem janitor_not_found_witness :
    monitorIter true ⟨[⟨"file-1", "a.pdf", 0⟩], some "th_1"⟩
        (.apiError "No thread found" 500) =
      (⟨[], none⟩, ["file-1"]) :=
  (janitor_not_found [⟨"file-1", "a.pdf", 0⟩] "th_1" "No thread found" 500
    (by decide) (by decide)).1 (by decide)

/-- One iteration of the `cleanup_by_timestamp` loop body: when session
files exist, collect those older than 7200 seconds; if any and a client
is configured, delete them remotely and keep only the files not among
the old ones (`f not in old_files`).  Returns the new session file list
and the ids deleted remotely. -/
def cleanupByTimestampIter (hasClient : Bool) (now : Int) (sf : List FileInfo) :
    List FileInfo × List String :=
  if !sf.isEmpty then
    let old_files := sf.filter (fun f => decide (7200 < now - f.uploaded_at))
    if !old_files.isEmpty then
      if hasClient then
        (sf.filter (fun f => decide (f ∉ old_files)), old_files.map FileInfo.file_id)
      else (sf, [])
    else (sf, [])
  else (sf, [])

/-- C5: on an age-janitor sweep with a configured client, every session
file older than 7200 seconds is removed from the list and its id is
among the remote deletions, every file aged 7200 seconds or less is
retained, and the deleted ids are exactly those of the over-age files. -/
theorem age_janitor (now : Int) (sf : List FileInfo) (f : FileInfo) (hf : f ∈ sf) :
    (7200 < now - f.uploaded_at → f ∉ (cleanupByTimestampIter true now sf).1) ∧
    (now - f.uploaded_at ≤ 7200 → f ∈ (cleanupByTimestampIter true now sf).1) ∧
    (cleanupByTimestampIter true now sf).2 =
      (sf.filter (fun g => decide (7200 < now - g.uploaded_at))).map FileInfo.file_id := by
  have hsf : ¬ sf.isEmpty := by
    cases sf with
    | nil => cases hf
    | cons a t => simp
  set old := sf.filter (fun g => decide (7200 < now - g.uploaded_at)) with hold
  refine ⟨?_, ?_, ?_⟩
  · intro hage hmem
    have hin : f ∈ old := by
      rw [hold]
      exact List.mem_filter.mpr ⟨hf, by simpa using hage⟩
    have hone : ¬ old.isEmpty := by
      cases hcase : old with
      | nil => rw [hcase] at hin; cases hin
      | cons a t => simp
    simp only [cleanupByTimestampIter, hsf, Bool.not_false, if_true, ← hold,
      hone, if_pos] at hmem
    have := (List.mem_filter.mp hmem).2
    simp only [decide_eq_true_eq] at this
    exact this hin
  · intro hage
    have hnin : f ∉ old := by
      intro hin
      have := (List.mem_filter.mp (hold ▸ hin)).2
      simp only [decide_eq_true_eq] at this
      omega
    by_cases hone : old.isEmpty
    · simp only [cleanupByTimestampIter, hsf, Bool.not_false, if_true, ← hold,
        hone]
      simpa using hf
    · simp only [cleanupByTimestampIter, hsf, Bool.not_false, if_true, ← hold,
        hone, Bool.not_false, if_pos]
      simp only [Bool.not_eq_true] at hone
      exact List.mem_filter.mpr ⟨hf, by simpa using hnin⟩
  · by_cases hone : old.isEmpty
    · have : old = [] := by simpa [List.isEmpty_iff] using hone
      simp only [cleanupByTimestampIter, hsf, Bool.not_false, if_true, ← hold,
        hone, this]
      simp [this.symm ▸ hone]
    · simp [cleanupByTimestampIter, hsf, ← hold, hone]

/-- Concrete two-file session for the age-janitor witness. -/
def demoFiles : List FileInfo :=
  [⟨"file-old", "viejo.pdf", 0⟩, ⟨"file-new", "nuevo.pdf", 2801⟩]

/-- Witness for `age_janitor` at time 10000: the file uploaded at 0
(age 10000 > 7200) is dropped and the file uploaded at 2801 (age 7199)
is retained. -/
theorem age_janitor_witness :
    (⟨"file-old", "viejo.pdf", 0⟩ : FileInfo) ∉
        (cleanupByTimestampIter true 10000 demoFiles).1 ∧
    (⟨"file-new", "nuevo.pdf", 2801⟩ : FileInfo) ∈
        (cleanupByTimestampIter true 10000 demoFiles).1 :=
  ⟨(age_janitor 10000 demoFiles ⟨"file-old", "viejo.pdf", 0⟩ (by decide)).1 (by decide),
    (age_janitor 10000 demoFiles ⟨"file-new", "nuevo.pdf", 2801⟩ (by decide)).2.1
      (by decide)⟩

/-- The static tool registry `AVAILABLE_TOOLS` (its key set). -/
def AVAILABLE_TOOLS : List String := ["buscar_documento_legal"]

/-- The tool-invocation timeout passed to `asyncio.wait_for` (seconds). -/
def TOOL_TIMEOUT : Nat := 120

/-- What the underlying tool function does when actually run: returns a
string or raises an exception with a message. -/
inductive ToolResult
  | ok (out : String)
  | raised (msg : String)
  deriving DecidableEq

/-- One tool call of a `requires_action` event: id, function name, how
long the function would run, and what it would return. -/
structure ToolCall where
  id : String
  name : String
  duration : Nat
  result : ToolResult
  deriving DecidableEq

/-- The output string produced for one registered tool invocation:
`asyncio.wait_for(..., timeout=120)` converts a too-long run into the
timeout error string, and any exception into the execution error
string. -/
def invokeTool (name : String) (duration : Nat) (result : ToolResult) : String :=
  if TOOL_TIMEOUT < duration then
    "Error: La herramienta " ++ name ++ " tardó demasiado."
  else
    match result with
    | .ok out => out
    | .raised msg => "Error ejecutando " ++ name ++ ": " ++ msg

/-- Dispatch of one tool call: only calls whose function name is in
`AVAILABLE_TOOLS` produce a `{tool_call_id, output}` entry; unknown
names fall through the `if` with no entry and no exception. -/
def dispatchOne (tc : ToolCall) : Option (String × String) :=
  if tc.name ∈ AVAILABLE_TOOLS then
    some (tc.id, invokeTool tc.name tc.duration tc.result)
  else none

/-- The `tool_outputs` list accumulated over all tool calls of a
`requires_action` event. -/
def dispatchAll (calls : List ToolCall) : List (String × String) :=
  calls.filterMap dispatchOne

/-- C6: an unregistered tool name yields no output entry (and, the
dispatch being a total function, no exception); a registered tool that
exceeds 120 seconds yields the bounded timeout error string as its
output; a registered tool that raises yields the execution error
string; and the event's remaining tool calls are dispatched regardless
of the first call's outcome. -/
theorem tool_dispatch_isolation (tc : ToolCall) (cs : List ToolCall) :
    (tc.name ∉ AVAILABLE_TOOLS → dispatchOne tc = none) ∧
    (tc.name ∈ AVAILABLE_TOOLS → TOOL_TIMEOUT < tc.duration →
      dispatchOne tc =
        some (tc.id, "Error: La herramienta " ++ tc.name ++ " tardó demasiado.")) ∧
    (∀ m, tc.name ∈ AVAILABLE_TOOLS → tc.duration ≤ TOOL_TIMEOUT →
      tc.result = .raised m →
      dispatchOne tc = some (tc.id, "Error ejecutando " ++ tc.name ++ ": " ++ m)) ∧
    dispatchAll (tc :: cs) = (dispatchOne tc).toList ++ dispatchAll cs := by
  refine ⟨?_, ?_, ?_, ?_⟩
  · intro hni
    simp [dispatchOne, hni]
  · intro hin hdur
    simp [dispatchOne, invokeTool, hin, hdur]
  · intro m hin hdur hres
    simp [dispatchOne, invokeTool, hin, Nat.not_lt.mpr hdur, hres]
  · cases hone : dispatchOne tc with
    | none => simp [dispatchAll, List.filterMap_cons, hone]
    | some p => simp [dispatchAll, List.filterMap_cons, hone]

/-- Witness for `tool_dispatch_isolation`: an unregistered name gives no
entry; a registered call running 121 seconds gives the timeout string. -/
theorem tool_dispatch_isolation_witness :
    dispatchOne ⟨"call_1", "herramienta_inexistente", 1, .ok "x"⟩ = none ∧
    dispatchOne ⟨"call_2", "buscar_documento_legal", 121, .ok "x"⟩ =
      some ("call_2",
        "Error: La herramienta buscar_documento_legal tardó demasiado.") :=
  ⟨(tool_dispatch_isolation ⟨"call_1", "herramienta_inexistente", 1, .ok "x"⟩ []).1
      (by decide),
    (tool_dispatch_isolation ⟨"call_2", "buscar_documento_legal", 121, .ok "x"⟩ []).2.1
      (by decide) (by decide)⟩

/-- The stream events the loop of `generate_response_streaming`
distinguishes: text deltas, `thread.run.requires_action`, and the three
terminal events (`thread.run.completed`, `thread.run.failed`,
`error`). -/
inductive StreamEvent
  | messageDelta (text : String)
  | requiresAction (runId : String) (calls : List ToolCall)
  | completed
  | failed
  | errorEv

/-- Result of one pass of the inner `for event in run_stream` loop. -/
inductive PassResult
  | terminal
  | resumed (s : List StreamEvent)
  | exhausted

/-- One pass of the inner event loop: deltas are consumed; a
`requires_action` event dispatches its tool calls and, only when
`tool_outputs` is non-empty, breaks out with the stream returned by
`submit_tool_outputs` (`resume outs`); terminal events break the outer
loop; running off the end of the stream ends the pass with no break. -/
def forPass (resume : List (String × String) → List StreamEvent) :
    List StreamEvent → PassResult
  | [] => .exhausted
  | .messageDelta _ :: rest => forPass resume rest
  | .requiresAction _ calls :: rest =>
      if (dispatchAll calls).isEmpty then forPass resume rest
      else .resumed (resume (dispatchAll calls))
  | .completed :: _ => .terminal
  | .failed :: _ => .terminal
  | .errorEv :: _ => .terminal

/-- The outer `while True` loop, fuel-bounded: returns `true` when the
loop exits within `fuel` iterations.  A pass that exhausts the stream
loops again over the now-exhausted iterator, which yields no further
events (modelled as `[]`). -/
def runOuter (resume : List (String × String) → List StreamEvent) :
    Nat → List StreamEvent → Bool
  | 0, _ => false
  | fuel + 1, evs =>
      match forPass resume evs with
      | .terminal => true
      | .resumed s => runOuter resume fuel s
      | .exhausted => runOuter resume fuel []

/-- Once the stream is exhausted the outer loop never exits: each
iteration re-reads the empty iterator and loops again. -/
theorem runOuter_nil (resume : List (String × String) → List StreamEvent) :
    ∀ fuel, runOuter resume fuel [] = false := by
  intro fuel
  induction fuel with
  | zero => rfl
  | succ n ih => simpa [runOuter, forPass] using ih

/-- A `requires_action` event whose only tool call names an unregistered
function. -/
def unknownToolEvent : StreamEvent :=
  .requiresAction "run_1" [⟨"call_1", "herramienta_inexistente", 1, .ok "x"⟩]

/-- C10: the outer event-consumption loop does NOT terminate on the
finite stream consisting of a single `requires_action` event whose tool
calls all name unregistered functions: `tool_outputs` is empty, so no
new stream handle is obtained and no break is taken; the exhausted
stream yields no further events and `while True` spins forever — for
every fuel bound, and whatever stream `submit_tool_outputs` would have
returned, the loop has not exited. -/
theorem stream_loop_never_exits
    (resume : List (String × String) → List StreamEvent) (fuel : Nat) :
    runOuter resume fuel [unknownToolEvent] = false := by
  cases fuel with
  | zero => rfl
  | succ n =>
      have hpass : forPass resume [unknownToolEvent] = .exhausted := by
        simp [forPass, unknownToolEvent, dispatchAll, dispatchOne, AVAILABLE_TOOLS]
      simp only [runOuter, hpass]
      exact runOuter_nil resume n

/-- Whether writing the temp file (`with open(tmp_path, "w") as tmp_file:
tmp_file.write(...)`) completed, or raised after `open` created the
file (disk full, encoding error, ...). -/
inductive WriteResult
  | ok
  | raised
  deriving DecidableEq

/-- Outcome of the `client.files.create` upload attempt inside the
`try` block: success, an `APIError`, or any other exception. -/
inductive UploadResult
  | ok
  | apiErr (msg : String)
  | otherErr (msg : String)
  deriving DecidableEq

/-- Outcome of the per-file upload phase of `handle_upload`, from the
point where the temp path is computed. -/
structure PerFileOutcome where
  tempRemoved : Bool
  uploadedId : Option String
  propagatedToOuter : Bool
  deriving DecidableEq

/-- The per-file upload phase: the temp file is written *before* the
`try/except APIError/finally` block; `os.remove(tmp_path)` sits in the
`finally`, so it runs on success, on `APIError`, and on any other
exception raised inside the `try` (which then propagates to the
per-file `except Exception` handler).  An exception raised while
writing the temp file itself never reaches the `finally`. -/
def perFileUploadPhase (w : WriteResult) (u : UploadResult) (newId : String) :
    PerFileOutcome :=
  match w with
  | .raised => ⟨false, none, true⟩
  | .ok =>
      match u with
      | .ok => ⟨true, some newId, false⟩
      | .apiErr _ => ⟨true, none, false⟩
      | .otherErr _ => ⟨true, none, true⟩

/-- C7 counterexample: an exception raised while writing the temp file —
after `open` has created it — reaches the per-file handler without
`os.remove` ever running (the `with` block precedes the
`try/finally`), so the temp file is not removed on that exit path. -/
theorem temp_file_leak_on_write_error :
    (perFileUploadPhase .raised .ok "file-9").tempRemoved = false := by
  decide

/-- C7 amended: on every exit path that reaches the upload `try` block —
success, remote `APIError`, and any other exception raised inside the
`try` — the temp file is removed by the `finally`; only an exception
during the temp file's own write leaks it. -/
theorem temp_file_cleanup_amended (u : UploadResult) (newId : String) :
    (perFileUploadPhase .ok u newId).tempRemoved = true ∧
    (perFileUploadPhase .raised u newId).tempRemoved = false := by
  cases u <;> exact ⟨rfl, rfl⟩

/-- The fields of `ChatState` that the clear-chat path touches, plus
`error_message` (declared in the state but written nowhere). -/
structure ChatStateM where
  messages : List Message
  thread_id : Option String
  file_info_list : List FileInfo
  session_files : List FileInfo
  processing : Bool
  uploading : Bool
  upload_progress : Nat
  ocr_progress : String
  streaming_response : String
  streaming : Bool
  thinking_seconds : Nat
  upload_error : String
  error_message : String
  focus_chat_input : Bool
  current_question : String
  chat_history : List String
  openai_api_key : String
  deriving DecidableEq

/-- `cleanup_session_files`: with a client and a non-empty
`session_files`, deletes each file remotely and empties the list —
both the deletions and the `session_files = []` assignment sit inside
`if client and self.session_files:`.  Returns the new state and the
remotely deleted ids. -/
def cleanup_session_files (st : ChatStateM) : ChatStateM × List String :=
  if clientExists st.openai_api_key && !st.session_files.isEmpty then
    ({ st with session_files := [] }, st.session_files.map FileInfo.file_id)
  else (st, [])

/-- The welcome message `limpiar_chat` leaves in `messages`. -/
def welcomeMessage : Message :=
  ⟨"assistant",
    "¡Hola! Soy LeyIA, tu Asistente Legal. Puedes hacerme una pregunta o subir un documento para analizarlo."⟩

/-- `limpiar_chat`: runs `cleanup_session_files`, then resets `messages`
to the welcome message, `thread_id`, `file_info_list`, the
processing/uploading/streaming flags, the progress counters,
`upload_error`, `focus_chat_input`, `current_question` and
`chat_history`.  The `self.session_files = []` line is commented out in
the source, and `error_message` is never written. -/
def limpiar_chat (st : ChatStateM) : ChatStateM × List String :=
  let r := cleanup_session_files st
  ({ r.1 with
      messages := [welcomeMessage]
      thread_id := none
      file_info_list := []
      processing := false
      uploading := false
      upload_progress := 0
      ocr_progress := ""
      streaming_response := ""
      streaming := false
      thinking_seconds := 0
      upload_error := ""
      focus_chat_input := false
      current_question := ""
      chat_history := [] }, r.2)

/-- A prior state with no API key and one session file. -/
def stNoKey : ChatStateM :=
  { messages := [⟨"user", "hola"⟩]
    thread_id := some "th_1"
    file_info_list := [⟨"file-1", "a.pdf", 0⟩]
    session_files := [⟨"file-1", "a.pdf", 0⟩]
    processing := true
    uploading := false
    upload_progress := 50
    ocr_progress := ""
    streaming_response := ""
    streaming := true
    thinking_seconds := 7
    upload_error := ""
    error_message := ""
    focus_chat_input := false
    current_question := ""
    chat_history := []
    openai_api_key := "" }

/-- C8 counterexample: with API credentials absent (client `None`) and a
session file present, `limpiar_chat` does NOT empty `session_files`:
`cleanup_session_files` only clears it inside `if client and
self.session_files:`, and the direct reset in `limpiar_chat` is
commented out. -/
theorem limpiar_chat_keeps_session_files :
    (limpiar_chat stNoKey).1.session_files ≠ [] := by
  decide

/-- C8 amended: for every prior state, `limpiar_chat` leaves exactly the
welcome message, clears `thread_id` and `file_info_list`, and resets
the processing/uploading/streaming flags, the progress fields and
`upload_error`; `session_files` is emptied when an API client exists
and is left unchanged when credentials are absent. -/
theorem limpiar_chat_resets (st : ChatStateM) :
    (limpiar_chat st).1.messages = [welcomeMessage] ∧
    (limpiar_chat st).1.thread_id = none ∧
    (limpiar_chat st).1.file_info_list = [] ∧
    (limpiar_chat st).1.processing = false ∧
    (limpiar_chat st).1.uploading = false ∧
    (limpiar_chat st).1.upload_progress = 0 ∧
    (limpiar_chat st).1.ocr_progress = "" ∧
    (limpiar_chat st).1.streaming_response = "" ∧
    (limpiar_chat st).1.streaming = false ∧
    (limpiar_chat st).1.thinking_seconds = 0 ∧
    (limpiar_chat st).1.upload_error = "" ∧
    (limpiar_chat st).1.focus_chat_input = false ∧
    (limpiar_chat st).1.current_question = "" ∧
    (clientExists st.openai_api_key = true →
      (limpiar_chat st).1.session_files = []) ∧
    (clientExists st.openai_api_key = false →
      (limpiar_chat st).1.session_files = st.session_files) := by
  unfold limpiar_chat cleanup_session_files
  by_cases hc : clientExists st.openai_api_key
  · by_cases hsf : st.session_files.isEmpty
    · have : st.session_files = [] := by simpa [List.isEmpty_iff] using hsf
      simp [hc, hsf, this]
    · simp [hc, hsf]
  · simp [hc]

/-- Witness for `limpiar_chat_resets`: with a configured key, the session
file list is emptied. -/
theorem limpiar_chat_resets_witness :
    (limpiar_chat { stNoKey with openai_api_key := "sk-test" }).1.session_files = [] :=
  (limpiar_chat_resets { stNoKey with openai_api_key := "sk-test" }).2.2.2.2.2.2.2.2.2.2.2.2.2.1
    (by decide)

/-- Replace the content of the last message
(`self.messages[-1]["content"] = ...`). -/
def setLastContent : List Message → String → List Message
  | [], _ => []
  | [m], c => [⟨m.role, c⟩]
  | m :: rest, c => m :: setLastContent rest c

/-- Effect of one iteration of the `thinking_timer` loop. -/
structure TimerIterResult where
  processing : Bool
  messages : List Message
  thinking_seconds : Nat
  exited : Bool
  deriving DecidableEq

/-- One iteration of `thinking_timer`: the `while self.processing` guard
is checked first; inside the body, `if current_time - start_time >
max_timeout` (600 s) clears `processing`, overwrites the last message
with the timeout error and breaks; otherwise the loop sleeps and
increments `thinking_seconds`. -/
def thinkingTimerIter (processing : Bool) (elapsed : Int) (messages : List Message)
    (ts : Nat) : TimerIterResult :=
  if processing then
    if 600 < elapsed then
      ⟨false, setLastContent messages "Error: Tiempo de respuesta agotado.", ts, true⟩
    else
      ⟨true, messages, ts + 1, false⟩
  else
    ⟨processing, messages, ts, true⟩

/-- C9 counterexample: with the guard still true (`processing = true`)
but 601 seconds elapsed, the elapsed-time counter's internal 600 s
cutoff clears the processing flag, overwrites the last message and
exits the loop — exactly the "other mechanism" the claim rules out. -/
theorem thinking_timer_cutoff :
    thinkingTimerIter true 601 [⟨"assistant", "Estoy pensando..."⟩] 5 =
      ⟨false, [⟨"assistant", "Error: Tiempo de respuesta agotado."⟩], 5, true⟩ := by
  decide

/-- C9 amended: the liveness and age janitors idle (state untouched,
nothing deleted) exactly when their session-file guard is false and
never exit their `while True` loops; the elapsed-time counter exits
when its guard `processing` is false, but additionally exits through an
internal 600-second cutoff that clears `processing` and overwrites the
last message while the guard still holds; below the cutoff it only
ticks. -/
theorem loops_stop_by_guard_amended :
    (∀ (e : Int) (msgs : List Message) (ts : Nat), e ≤ 600 →
      thinkingTimerIter true e msgs ts = ⟨true, msgs, ts + 1, false⟩) ∧
    (∀ (e : Int) (msgs : List Message) (ts : Nat),
      thinkingTimerIter false e msgs ts = ⟨false, msgs, ts, true⟩) ∧
    (∀ (e : Int) (msgs : List Message) (ts : Nat), 600 < e →
      thinkingTimerIter true e msgs ts =
        ⟨false, setLastContent msgs "Error: Tiempo de respuesta agotado.", ts, true⟩) ∧
    (∀ (hc : Bool) (tid : Option String) (res : RetrieveResult),
      monitorIter hc ⟨[], tid⟩ res = (⟨[], tid⟩, [])) ∧
    (∀ (hc : Bool) (now : Int), cleanupByTimestampIter hc now [] = ([], [])) := by
  refine ⟨?_, ?_, ?_, ?_, ?_⟩
  · intro e msgs ts he
    simp [thinkingTimerIter, Int.not_lt.mpr he]
  · intro e msgs ts
    simp [thinkingTimerIter]
  · intro e msgs ts he
    simp [thinkingTimerIter, he]
  · intro hc tid res
    simp [monitorIter]
  · intro hc now
    simp [cleanupByTimestampIter]

/-- Witness for `loops_stop_by_guard_amended`: at 599 s with the guard
true, the counter only ticks. -/
theorem loops_stop_by_guard_amended_witness :
    thinkingTimerIter true 599 [⟨"assistant", "Estoy pensando..."⟩] 4 =
      ⟨true, [⟨"assistant", "Estoy pensando..."⟩], 5, false⟩ :=
  loops_stop_by_guard_amended.1 599 [⟨"assistant", "Estoy pensando..."⟩] 4 (by decide)
